import Mathlib

/-!
# Verification of `battery_control.py` (btrekkie/battery-controller)

Shallow embedding of the `BatteryController` class.  The persisted JSON
record is modelled as a `Status` structure with one `Option` field per JSON
key (a key may be absent, including `currentState` and `defaultState`, since
the on-disk record is arbitrary JSON).  Timestamps (ISO 8601 strings compared
as `datetime`s) are modelled as integers (seconds); battery percentages
(`psutil` floats) are modelled as rationals.

The reconciliation step `BatteryController._poll(status)` (lines 203-256 of
`battery_control.py`) is embedded as the function ` _poll : Env → Status →
PollOutcome`, written as the composition of one function per block of its
straight-line body: `expire_override` (lines 225-230), `expire_keep` (lines
231-234), `hysteresis` (lines 236-242) wrapped by `evaluate`, and `drive`
(lines 244-256).  The outcome records the in-memory status after the
executed statements, the desired state once computed, the driver calls
issued, whether the battery sensor was read, whether `_write_state` ran, and
the exception, if any (a `KeyError` on a missing dict key, or a failure of
`_turn_on` / `_turn_off`).  Each façade operation is embedded as its field
mutation followed by ` _poll`, exactly as in the source.
-/

namespace BatteryController

/-- The persisted state record (`_STATE_FILENAME` JSON object).  Every field
is optional because the record is an arbitrary JSON dict: the code documents
`currentState` and `defaultState` as always present but reads them without a
guard. -/
structure Status where
  currentState : Option Bool
  defaultState : Option Bool
  keepStateUntil : Option Int
  manualOverrideState : Option Bool
  manualOverrideStateExpiresAt : Option Int
deriving Repr, DecidableEq

/-- `_DISCHARGE_THRESHOLD = 50`. -/
def DISCHARGE_THRESHOLD : ℚ := 50

/-- `_CHARGE_THRESHOLD = 75`. -/
def CHARGE_THRESHOLD : ℚ := 75

/-- `_SLEEP_CHARGE_THRESHOLD = 30`. -/
def SLEEP_CHARGE_THRESHOLD : ℚ := 30

/-- `_MANUAL_OVERRIDE_INTERVAL = timedelta(days=1)`, in seconds. -/
def MANUAL_OVERRIDE_INTERVAL : Int := 86400

/-- `_SLEEP_INTERVAL = timedelta(minutes=2)`, in seconds. -/
def SLEEP_INTERVAL : Int := 120

/-- `_HOME_SSID`. -/
def HOME_SSID : String := "HomeSSID"

/-- `_default_state()`: the initial state information used when the state
file does not exist. -/
def default_state : Status :=
  { currentState := some true
    defaultState := some true
    keepStateUntil := none
    manualOverrideState := none
    manualOverrideStateExpiresAt := none }

/-- An exception raised during `_poll`: a `KeyError` from reading a missing
dict key, or an exception from `_turn_on` / `_turn_off` (plug unreachable or
the kasa call failed). -/
inductive PollError where
  | keyError (field : String)
  | driverError
deriving Repr, DecidableEq

/-- The live inputs of one reconciliation: the SSID reported by `_ssid()`
(`none` when no network is associated), the current time `datetime.now()`,
the battery percentage `psutil.sensors_battery().percent`, and whether a
`_turn_on` / `_turn_off` call would succeed. -/
structure Env where
  ssid : Option String
  now : Int
  battery : ℚ
  driverOk : Bool
deriving Repr, DecidableEq

/-- The observable result of one `_poll` call: the in-memory `status` dict
after the statements that executed, the desired state once computed, the
states requested from the plug driver (in order), whether the battery sensor
was queried, whether `_write_state` ran, and the exception, if one was
raised. -/
structure PollOutcome where
  status : Status
  desired : Option Bool
  driverCalls : List Bool
  batteryQueried : Bool
  written : Bool
  error : Option PollError
deriving Repr, DecidableEq

/-- Lines 225-230: if `'manualOverrideState' in status`, read
`status['manualOverrideStateExpiresAt']` (a `KeyError` if absent) and pop
both fields when `now >= expires_at`. -/
def expire_override (now : Int) (s : Status) : Except PollError Status :=
  match s.manualOverrideState with
  | none => .ok s
  | some _ =>
    match s.manualOverrideStateExpiresAt with
    | none => .error (.keyError "manualOverrideStateExpiresAt")
    | some expiresAt =>
      if expiresAt ≤ now then
        .ok { s with manualOverrideState := none, manualOverrideStateExpiresAt := none }
      else
        .ok s

/-- Lines 231-234: if `'keepStateUntil' in status` and
`now >= keep_state_until`, pop it. -/
def expire_keep (now : Int) (s : Status) : Status :=
  match s.keepStateUntil with
  | none => s
  | some keepStateUntil =>
    if keepStateUntil ≤ now then { s with keepStateUntil := none } else s

/-- Lines 237-242, the hysteresis evaluation run when `keepStateUntil` is
absent: if `status['defaultState']` (a `KeyError` when absent) and
`battery >= _CHARGE_THRESHOLD`, set it to `False`; `elif
battery <= _DISCHARGE_THRESHOLD`, set it to `True`. -/
def hysteresis (battery : ℚ) (s : Status) : Except PollError Status :=
  match s.defaultState with
  | none => .error (.keyError "defaultState")
  | some ds =>
    if ds then
      if CHARGE_THRESHOLD ≤ battery then
        .ok { s with defaultState := some false }
      else
        .ok s
    else
      if battery ≤ DISCHARGE_THRESHOLD then
        .ok { s with defaultState := some true }
      else
        .ok s

/-- Lines 244-247: `desired_state = status['manualOverrideState']` when that
key is present, else `status['defaultState']` (a `KeyError` when absent). -/
def desired_state (s : Status) : Except PollError Bool :=
  match s.manualOverrideState with
  | some b => .ok b
  | none =>
    match s.defaultState with
    | some b => .ok b
    | none => .error (.keyError "defaultState")

/-- Lines 244-256: compute the desired state, compare it to
`status['currentState']` (a `KeyError` when absent), call `_turn_on` or
`_turn_off` when they differ (recording `currentState = desired_state` on
success, propagating the exception on failure), and finally `_write_state`.
`queried` says whether the battery sensor was read earlier in this call. -/
def drive (env : Env) (queried : Bool) (s3 : Status) : PollOutcome :=
  match desired_state s3 with
  | .error e =>
    { status := s3, desired := none, driverCalls := [], batteryQueried := queried
      written := false, error := some e }
  | .ok d =>
    match s3.currentState with
    | none =>
      { status := s3, desired := some d, driverCalls := [], batteryQueried := queried
        written := false, error := some (.keyError "currentState") }
    | some cur =>
      if d ≠ cur then
        if env.driverOk then
          { status := { s3 with currentState := some d }, desired := some d
            driverCalls := [d], batteryQueried := queried, written := true
            error := none }
        else
          { status := s3, desired := some d, driverCalls := [d]
            batteryQueried := queried, written := false
            error := some .driverError }
      else
        { status := s3, desired := some d, driverCalls := []
          batteryQueried := queried, written := true, error := none }

/-- Lines 236-256: when `'keepStateUntil' not in status`, query the battery
sensor and run the hysteresis block (whose `KeyError` on a missing
`defaultState` aborts the call), then continue with the driver block. -/
def evaluate (env : Env) (s2 : Status) : PollOutcome :=
  if s2.keepStateUntil.isNone then
    match hysteresis env.battery s2 with
    | .error e =>
      { status := s2, desired := none, driverCalls := [], batteryQueried := true
        written := false, error := some e }
    | .ok s3 => drive env true s3
  else
    drive env false s2

/-- `BatteryController._poll(status)`, lines 203-256.  If the SSID is not
`_HOME_SSID`, write the status as-is and return (lines 220-222).  Otherwise
expire the manual override, expire the keep-window, and continue with
hysteresis and the driver block.  An exception aborts the call where it is
raised: the fields of the outcome reflect exactly the statements that
executed. -/
def _poll (env : Env) (s : Status) : PollOutcome :=
  if env.ssid ≠ some HOME_SSID then
    { status := s, desired := none, driverCalls := [], batteryQueried := false
      written := true, error := none }
  else
    match expire_override env.now s with
    | .error e =>
      { status := s, desired := none, driverCalls := [], batteryQueried := false
        written := false, error := some e }
    | .ok s1 => evaluate env (expire_keep env.now s1)

/-- `poll()`, lines 287-297: read the state and run `_poll` with no field
pre-mutation.  The state read from the file is the parameter `s`. -/
def poll (env : Env) (s : Status) : PollOutcome := _poll env s

/-- `enable_manual_override()`, lines 306-321: set
`manualOverrideState = True` and `manualOverrideStateExpiresAt =
now + _MANUAL_OVERRIDE_INTERVAL`, then `_poll`.  `tSet` is the
`datetime.now()` read inside the lock before the mutation. -/
def enable_manual_override (tSet : Int) (env : Env) (s : Status) : PollOutcome :=
  _poll env
    { s with
      manualOverrideState := some true
      manualOverrideStateExpiresAt := some (tSet + MANUAL_OVERRIDE_INTERVAL) }

/-- `disable_manual_override()`, lines 323-331: pop both override fields
(absent-safe `pop` with default), then `_poll`. -/
def disable_manual_override (env : Env) (s : Status) : PollOutcome :=
  _poll env { s with manualOverrideState := none, manualOverrideStateExpiresAt := none }

/-- `prepare_for_sleep()`, lines 333-349: with `battery` the percentage read
before the lock was acquired and `tSleep` the `datetime.now()` read inside
the lock, set `defaultState = (battery <= _SLEEP_CHARGE_THRESHOLD)` and
`keepStateUntil = tSleep + _SLEEP_INTERVAL`, then `_poll`. -/
def prepare_for_sleep (battery : ℚ) (tSleep : Int) (env : Env) (s : Status) :
    PollOutcome :=
  _poll env
    { s with
      defaultState := some (decide (battery ≤ SLEEP_CHARGE_THRESHOLD))
      keepStateUntil := some (tSleep + SLEEP_INTERVAL) }

/-- `scan()`, lines 351-370: set `currentState` to the plug state observed
by the driver, then `_poll`. -/
def scan (isOn : Bool) (env : Env) (s : Status) : PollOutcome :=
  _poll env { s with currentState := some isOn }

/-- The steps of `prepare_for_sleep()` in source order (lines 341-349): the
battery query happens first, before the lock is acquired. -/
inductive OpEvent where
  | queryBattery
  | acquireLock
  | readState
  | reconcile
deriving Repr, DecidableEq

/-- The event order of `prepare_for_sleep()`, lines 341-349. -/
def prepare_for_sleep_events : List OpEvent :=
  [.queryBattery, .acquireLock, .readState, .reconcile]

/-- The pairing invariant documented for the state record:
`manualOverrideState` and `manualOverrideStateExpiresAt` are both present or
both absent. -/
def overridePaired (s : Status) : Prop :=
  s.manualOverrideState.isSome = s.manualOverrideStateExpiresAt.isSome

instance (s : Status) : Decidable (overridePaired s) := by
  unfold overridePaired; infer_instance

/-- The `timeout` argument `_lock()` passes to `SoftFileLock` (line 269). -/
def lock_timeout : Int := 30

/-- The `timeout` argument in effect for the `SoftFileLock` constructed by
`_optimistic_lock()` (line 285): no `timeout` argument is passed, so the
filelock library default of `-1` applies. -/
def optimistic_lock_timeout : Int := -1

/-- Outcome of a lock acquisition attempt while the lock file is held by
another invocation for longer than any finite timeout. -/
inductive LockResult where
  | acquired
  | raisedTimeout
  | waitsIndefinitely
deriving Repr, DecidableEq

/-- Modelled from the filelock library (a dependency, not part of src/):
`BaseFileLock.acquire` polls the lock file; with a negative `timeout` it
polls forever, with a nonnegative `timeout` it raises `filelock.Timeout`
once the deadline passes (immediately for `timeout = 0`).  `heldByOther`
says whether another invocation holds the lock for the whole attempt. -/
def softFileLockAcquire (timeout : Int) (heldByOther : Bool) : LockResult :=
  if heldByOther = false then .acquired
  else if timeout < 0 then .waitsIndefinitely
  else .raisedTimeout

end BatteryController

namespace BatteryController

/-! ## Step lemmas

Small rewrite lemmas, one per branch of each step function, used by the
claim proofs below. -/

theorem expire_override_of_none {now : Int} {s : Status}
    (h : s.manualOverrideState = none) : expire_override now s = .ok s := by
  simp [expire_override, h]

theorem expire_override_of_live {now : Int} {s : Status} {m : Bool} {e : Int}
    (hm : s.manualOverrideState = some m)
    (he : s.manualOverrideStateExpiresAt = some e)
    (hlt : ¬(e ≤ now)) : expire_override now s = .ok s := by
  simp [expire_override, hm, he, hlt]

theorem expire_override_of_expired {now : Int} {s : Status} {m : Bool} {e : Int}
    (hm : s.manualOverrideState = some m)
    (he : s.manualOverrideStateExpiresAt = some e)
    (hge : e ≤ now) :
    expire_override now s =
      .ok { s with manualOverrideState := none, manualOverrideStateExpiresAt := none } := by
  simp [expire_override, hm, he, hge]

theorem expire_override_of_broken {now : Int} {s : Status} {m : Bool}
    (hm : s.manualOverrideState = some m)
    (he : s.manualOverrideStateExpiresAt = none) :
    expire_override now s = .error (.keyError "manualOverrideStateExpiresAt") := by
  simp [expire_override, hm, he]

theorem expire_keep_of_none {now : Int} {s : Status}
    (h : s.keepStateUntil = none) : expire_keep now s = s := by
  simp [expire_keep, h]

theorem expire_keep_of_live {now : Int} {s : Status} {k : Int}
    (hk : s.keepStateUntil = some k) (hlt : ¬(k ≤ now)) : expire_keep now s = s := by
  simp [expire_keep, hk, hlt]

theorem expire_keep_of_expired {now : Int} {s : Status} {k : Int}
    (hk : s.keepStateUntil = some k) (hge : k ≤ now) :
    expire_keep now s = { s with keepStateUntil := none } := by
  simp [expire_keep, hk, hge]

theorem hysteresis_true_hi {battery : ℚ} {s : Status}
    (hds : s.defaultState = some true) (hb : CHARGE_THRESHOLD ≤ battery) :
    hysteresis battery s = .ok { s with defaultState := some false } := by
  simp [hysteresis, hds, hb]

theorem hysteresis_true_lo {battery : ℚ} {s : Status}
    (hds : s.defaultState = some true) (hb : ¬(CHARGE_THRESHOLD ≤ battery)) :
    hysteresis battery s = .ok s := by
  simp [hysteresis, hds, hb]

theorem hysteresis_false_lo {battery : ℚ} {s : Status}
    (hds : s.defaultState = some false) (hb : battery ≤ DISCHARGE_THRESHOLD) :
    hysteresis battery s = .ok { s with defaultState := some true } := by
  simp [hysteresis, hds, hb]

theorem hysteresis_false_hi {battery : ℚ} {s : Status}
    (hds : s.defaultState = some false) (hb : ¬(battery ≤ DISCHARGE_THRESHOLD)) :
    hysteresis battery s = .ok s := by
  simp [hysteresis, hds, hb]

theorem poll_away {env : Env} {s : Status} (hss : env.ssid ≠ some HOME_SSID) :
    _poll env s =
      { status := s, desired := none, driverCalls := [], batteryQueried := false
        written := true, error := none } := by
  simp [ _poll, hss]

theorem poll_home {env : Env} {s s1 : Status} (hss : env.ssid = some HOME_SSID)
    (hov : expire_override env.now s = .ok s1) :
    _poll env s = evaluate env (expire_keep env.now s1) := by
  simp [ _poll, hss, hov]

theorem poll_home_broken {env : Env} {s : Status} {e : PollError}
    (hss : env.ssid = some HOME_SSID)
    (hov : expire_override env.now s = .error e) :
    _poll env s =
      { status := s, desired := none, driverCalls := [], batteryQueried := false
        written := false, error := some e } := by
  simp [ _poll, hss, hov]

theorem evaluate_of_keep_some {env : Env} {s2 : Status} {k : Int}
    (hk : s2.keepStateUntil = some k) : evaluate env s2 = drive env false s2 := by
  simp [evaluate, hk]

theorem evaluate_of_keep_none {env : Env} {s2 s3 : Status}
    (hk : s2.keepStateUntil = none) (hh : hysteresis env.battery s2 = .ok s3) :
    evaluate env s2 = drive env true s3 := by
  simp [evaluate, hk, hh]

theorem evaluate_of_keep_none_broken {env : Env} {s2 : Status}
    (hk : s2.keepStateUntil = none) (hds : s2.defaultState = none) :
    evaluate env s2 =
      { status := s2, desired := none, driverCalls := [], batteryQueried := true
        written := false, error := some (.keyError "defaultState") } := by
  simp [evaluate, hk, hysteresis, hds]

theorem drive_of_eq {env : Env} {q : Bool} {s3 : Status} {d : Bool}
    (hd : desired_state s3 = .ok d) (hcur : s3.currentState = some d) :
    drive env q s3 =
      { status := s3, desired := some d, driverCalls := [], batteryQueried := q
        written := true, error := none } := by
  simp [drive, hd, hcur]

theorem drive_of_ne_ok {env : Env} {q : Bool} {s3 : Status} {d cur : Bool}
    (hd : desired_state s3 = .ok d) (hcur : s3.currentState = some cur)
    (hne : d ≠ cur) (hok : env.driverOk = true) :
    drive env q s3 =
      { status := { s3 with currentState := some d }, desired := some d
        driverCalls := [d], batteryQueried := q, written := true, error := none } := by
  simp [drive, hd, hcur, hne, hok]

theorem drive_of_ne_fail {env : Env} {q : Bool} {s3 : Status} {d cur : Bool}
    (hd : desired_state s3 = .ok d) (hcur : s3.currentState = some cur)
    (hne : d ≠ cur) (hok : env.driverOk = false) :
    drive env q s3 =
      { status := s3, desired := some d, driverCalls := [d], batteryQueried := q
        written := false, error := some .driverError } := by
  simp [drive, hd, hcur, hne, hok]

theorem drive_of_no_current {env : Env} {q : Bool} {s3 : Status} {d : Bool}
    (hd : desired_state s3 = .ok d) (hcur : s3.currentState = none) :
    drive env q s3 =
      { status := s3, desired := some d, driverCalls := [], batteryQueried := q
        written := false, error := some (.keyError "currentState") } := by
  simp [drive, hd, hcur]

theorem drive_of_no_desired {env : Env} {q : Bool} {s3 : Status} {e : PollError}
    (hd : desired_state s3 = .error e) :
    drive env q s3 =
      { status := s3, desired := none, driverCalls := [], batteryQueried := q
        written := false, error := some e } := by
  simp [drive, hd]

theorem desired_state_total {s3 : Status} {b : Bool}
    (hds : s3.defaultState = some b) :
    ∃ d : Bool, desired_state s3 = .ok d := by
  rcases hm : s3.manualOverrideState with _ | m
  · exact ⟨b, by simp [desired_state, hm, hds]⟩
  · exact ⟨m, by simp [desired_state, hm]⟩

theorem desired_state_of_override {s3 : Status} {m : Bool}
    (hm : s3.manualOverrideState = some m) : desired_state s3 = .ok m := by
  simp [desired_state, hm]

theorem desired_state_of_default {s3 : Status} {b : Bool}
    (hm : s3.manualOverrideState = none) (hds : s3.defaultState = some b) :
    desired_state s3 = .ok b := by
  simp [desired_state, hm, hds]

end BatteryController

namespace BatteryController

/-! ## Derived lemmas about the step functions -/

theorem update_defaultState_self {s : Status} {b : Bool}
    (h : s.defaultState = some b) : { s with defaultState := some b } = s := by
  cases s; simp_all

theorem update_currentState_self {s : Status} {b : Bool}
    (h : s.currentState = some b) : { s with currentState := some b } = s := by
  cases s; simp_all

theorem desired_state_congr {a b : Status}
    (hm : b.manualOverrideState = a.manualOverrideState)
    (hds : b.defaultState = a.defaultState) :
    desired_state b = desired_state a := by
  unfold desired_state; rw [hm, hds]

theorem expire_keep_frame (now : Int) (s : Status) :
    (expire_keep now s).currentState = s.currentState ∧
    (expire_keep now s).defaultState = s.defaultState ∧
    (expire_keep now s).manualOverrideState = s.manualOverrideState ∧
    (expire_keep now s).manualOverrideStateExpiresAt = s.manualOverrideStateExpiresAt := by
  rcases hk : s.keepStateUntil with _ | k
  · rw [expire_keep_of_none hk]; exact ⟨rfl, rfl, rfl, rfl⟩
  · by_cases hkn : k ≤ now
    · rw [expire_keep_of_expired hk hkn]; exact ⟨rfl, rfl, rfl, rfl⟩
    · rw [expire_keep_of_live hk hkn]; exact ⟨rfl, rfl, rfl, rfl⟩

theorem expire_keep_clears {now : Int} {s : Status}
    (h : ∀ k, s.keepStateUntil = some k → k ≤ now) :
    (expire_keep now s).keepStateUntil = none := by
  rcases hk : s.keepStateUntil with _ | k
  · rw [expire_keep_of_none hk]; exact hk
  · rw [expire_keep_of_expired hk (h k hk)]

theorem expire_keep_idem (now : Int) (s : Status) :
    expire_keep now (expire_keep now s) = expire_keep now s := by
  rcases hk : s.keepStateUntil with _ | k
  · rw [expire_keep_of_none hk, expire_keep_of_none hk]
  · by_cases hkn : k ≤ now
    · rw [expire_keep_of_expired hk hkn, expire_keep_of_none rfl]
    · rw [expire_keep_of_live hk hkn, expire_keep_of_live hk hkn]

theorem expire_override_idem {now : Int} {s s1 : Status}
    (h : expire_override now s = .ok s1) : expire_override now s1 = .ok s1 := by
  rcases hm : s.manualOverrideState with _ | m
  · rw [expire_override_of_none hm] at h
    simp only [Except.ok.injEq] at h
    subst h
    exact expire_override_of_none hm
  · rcases hE : s.manualOverrideStateExpiresAt with _ | e
    · rw [expire_override_of_broken hm hE] at h; simp at h
    · by_cases hge : e ≤ now
      · rw [expire_override_of_expired hm hE hge] at h
        simp only [Except.ok.injEq] at h
        subst h
        exact expire_override_of_none rfl
      · rw [expire_override_of_live hm hE hge] at h
        simp only [Except.ok.injEq] at h
        subst h
        exact expire_override_of_live hm hE hge

theorem expire_override_congr {now : Int} {a b : Status}
    (hm : b.manualOverrideState = a.manualOverrideState)
    (he : b.manualOverrideStateExpiresAt = a.manualOverrideStateExpiresAt)
    (h : expire_override now a = .ok a) :
    expire_override now b = .ok b := by
  rcases hma : a.manualOverrideState with _ | m
  · exact expire_override_of_none (hm.trans hma)
  · rcases hea : a.manualOverrideStateExpiresAt with _ | e
    · rw [expire_override_of_broken hma hea] at h; simp at h
    · by_cases hge : e ≤ now
      · rw [expire_override_of_expired hma hea hge] at h
        simp only [Except.ok.injEq] at h
        have := congrArg Status.manualOverrideState h
        simp [hma] at this
      · exact expire_override_of_live (hm.trans hma) (he.trans hea) hge

theorem hysteresis_total {battery : ℚ} {s : Status} {b : Bool}
    (hds : s.defaultState = some b) :
    ∃ b2 : Bool, hysteresis battery s = .ok { s with defaultState := some b2 } := by
  rcases b with _ | _
  · by_cases hb : battery ≤ DISCHARGE_THRESHOLD
    · exact ⟨true, hysteresis_false_lo hds hb⟩
    · refine ⟨false, ?_⟩
      rw [hysteresis_false_hi hds hb, update_defaultState_self hds]
  · by_cases hb : CHARGE_THRESHOLD ≤ battery
    · exact ⟨false, hysteresis_true_hi hds hb⟩
    · refine ⟨true, ?_⟩
      rw [hysteresis_true_lo hds hb, update_defaultState_self hds]

theorem hysteresis_fix {battery : ℚ} {s s3 t : Status} {b2 : Bool}
    (h : hysteresis battery s = .ok s3) (h3 : s3.defaultState = some b2)
    (ht : t.defaultState = some b2) :
    hysteresis battery t = .ok t := by
  rcases hds : s.defaultState with _ | b
  · simp [hysteresis, hds] at h
  · rcases b with _ | _
    · by_cases hb : battery ≤ DISCHARGE_THRESHOLD
      · rw [hysteresis_false_lo hds hb] at h
        simp only [Except.ok.injEq] at h
        have hb2 : b2 = true := by
          have := congrArg Status.defaultState h
          simp [h3] at this
          exact this
        subst hb2
        have hc : ¬(CHARGE_THRESHOLD ≤ battery) := by
          intro hc
          have h1 : CHARGE_THRESHOLD ≤ DISCHARGE_THRESHOLD := le_trans hc hb
          norm_num [CHARGE_THRESHOLD, DISCHARGE_THRESHOLD] at h1
        rw [hysteresis_true_lo ht hc]
      · rw [hysteresis_false_hi hds hb] at h
        simp only [Except.ok.injEq] at h
        subst h
        have hb2 : b2 = false := by rw [hds] at h3; exact (Option.some.inj h3).symm
        subst hb2
        rw [hysteresis_false_hi ht hb]
    · by_cases hb : CHARGE_THRESHOLD ≤ battery
      · rw [hysteresis_true_hi hds hb] at h
        simp only [Except.ok.injEq] at h
        have hb2 : b2 = false := by
          have := congrArg Status.defaultState h
          simp [h3] at this
          exact this
        subst hb2
        have hd : ¬(battery ≤ DISCHARGE_THRESHOLD) := by
          intro hd
          have h1 : CHARGE_THRESHOLD ≤ DISCHARGE_THRESHOLD := le_trans hb hd
          norm_num [CHARGE_THRESHOLD, DISCHARGE_THRESHOLD] at h1
        rw [hysteresis_false_hi ht hd]
      · rw [hysteresis_true_lo hds hb] at h
        simp only [Except.ok.injEq] at h
        subst h
        have hb2 : b2 = true := by rw [hds] at h3; exact (Option.some.inj h3).symm
        subst hb2
        rw [hysteresis_true_lo ht hb]

theorem drive_status_frame (env : Env) (q : Bool) (s3 : Status) :
    (drive env q s3).status.defaultState = s3.defaultState ∧
    (drive env q s3).status.keepStateUntil = s3.keepStateUntil ∧
    (drive env q s3).status.manualOverrideState = s3.manualOverrideState ∧
    (drive env q s3).status.manualOverrideStateExpiresAt = s3.manualOverrideStateExpiresAt ∧
    (drive env q s3).batteryQueried = q := by
  rcases hd : desired_state s3 with e | d
  · rw [drive_of_no_desired hd]; exact ⟨rfl, rfl, rfl, rfl, rfl⟩
  · rcases hcur : s3.currentState with _ | c
    · rw [drive_of_no_current hd hcur]; exact ⟨rfl, rfl, rfl, rfl, rfl⟩
    · by_cases hne : d = c
      · subst hne
        rw [drive_of_eq hd hcur]; exact ⟨rfl, rfl, rfl, rfl, rfl⟩
      · rcases hdr : env.driverOk with _ | _
        · rw [drive_of_ne_fail hd hcur hne hdr]; exact ⟨rfl, rfl, rfl, rfl, rfl⟩
        · rw [drive_of_ne_ok hd hcur hne hdr]; exact ⟨rfl, rfl, rfl, rfl, rfl⟩

theorem drive_desired {env : Env} {q : Bool} {s3 : Status} {d : Bool}
    (hd : desired_state s3 = .ok d) : (drive env q s3).desired = some d := by
  rcases hcur : s3.currentState with _ | c
  · rw [drive_of_no_current hd hcur]
  · by_cases hne : d = c
    · subst hne; rw [drive_of_eq hd hcur]
    · rcases hdr : env.driverOk with _ | _
      · rw [drive_of_ne_fail hd hcur hne hdr]
      · rw [drive_of_ne_ok hd hcur hne hdr]

theorem drive_spec {env : Env} {q : Bool} {s3 : Status} {d cur : Bool}
    (hd : desired_state s3 = .ok d) (hcur : s3.currentState = some cur) :
    (drive env q s3).desired = some d ∧
    (drive env q s3).driverCalls = (if d = cur then [] else [d]) ∧
    (env.driverOk = true → (drive env q s3).status.currentState = some d ∧
      (drive env q s3).written = true ∧ (drive env q s3).error = none) ∧
    (env.driverOk = false → d ≠ cur → (drive env q s3).status.currentState = some cur ∧
      (drive env q s3).written = false ∧
      (drive env q s3).error = some .driverError) := by
  by_cases hne : d = cur
  · subst hne
    rw [drive_of_eq hd hcur]
    simp [hcur]
  · rcases hdr : env.driverOk with _ | _
    · rw [drive_of_ne_fail hd hcur hne hdr]
      simp [hne, hcur, hdr]
    · rw [drive_of_ne_ok hd hcur hne hdr]
      simp [hne, hdr]

theorem drive_no_keyError {env : Env} {q : Bool} {s3 : Status} {d cur : Bool}
    (hd : desired_state s3 = .ok d) (hcur : s3.currentState = some cur) :
    ∀ f : String, (drive env q s3).error ≠ some (.keyError f) := by
  intro f
  by_cases hne : d = cur
  · subst hne; rw [drive_of_eq hd hcur]; simp
  · rcases hdr : env.driverOk with _ | _
    · rw [drive_of_ne_fail hd hcur hne hdr]; simp
    · rw [drive_of_ne_ok hd hcur hne hdr]; simp

theorem poll_home_paired {env : Env} {s : Status}
    (hss : env.ssid = some HOME_SSID) (hpair : overridePaired s) :
    ∃ s1 : Status, expire_override env.now s = .ok s1 ∧
      _poll env s = evaluate env (expire_keep env.now s1) ∧
      s1.currentState = s.currentState ∧
      s1.defaultState = s.defaultState ∧
      s1.keepStateUntil = s.keepStateUntil ∧
      overridePaired s1 := by
  have hps : s.manualOverrideState.isSome = s.manualOverrideStateExpiresAt.isSome := hpair
  rcases hm : s.manualOverrideState with _ | m
  · exact ⟨s, expire_override_of_none hm,
      poll_home hss (expire_override_of_none hm), rfl, rfl, rfl, hpair⟩
  · obtain ⟨e, hE⟩ : ∃ e, s.manualOverrideStateExpiresAt = some e := by
      rcases hE : s.manualOverrideStateExpiresAt with _ | e
      · rw [hm, hE] at hps; simp at hps
      · exact ⟨e, rfl⟩
    by_cases hge : e ≤ env.now
    · refine ⟨_, expire_override_of_expired hm hE hge,
        poll_home hss (expire_override_of_expired hm hE hge), rfl, rfl, rfl, ?_⟩
      unfold overridePaired
      simp
    · exact ⟨s, expire_override_of_live hm hE hge,
        poll_home hss (expire_override_of_live hm hE hge), rfl, rfl, rfl, hpair⟩

end BatteryController

namespace BatteryController

/-! ## Claim theorems -/

/-- C1: Hysteresis dead band.  In a reconciliation on the expected network
with no keep-window present (after expiry clearing) and a well-paired
override record: if `defaultState` is `true` and the battery reading is
`>= 75` the post-reconciliation `defaultState` is `false`; if it is `false`
and the reading is `<= 50` it becomes `true`; and for every reading strictly
between 50 and 75, `defaultState` is unchanged.  The comparisons are
non-strict exactly as stated. -/
theorem hysteresis_dead_band (env : Env) (s : Status)
    (hss : env.ssid = some HOME_SSID)
    (hpair : overridePaired s)
    (hkeep : ∀ k, s.keepStateUntil = some k → k ≤ env.now) :
    (s.defaultState = some true → env.battery ≥ CHARGE_THRESHOLD →
      ( _poll env s).status.defaultState = some false) ∧
    (s.defaultState = some false → env.battery ≤ DISCHARGE_THRESHOLD →
      ( _poll env s).status.defaultState = some true) ∧
    (DISCHARGE_THRESHOLD < env.battery → env.battery < CHARGE_THRESHOLD →
      ( _poll env s).status.defaultState = s.defaultState) := by
  obtain ⟨s1, hov, hpoll, hc1, hd1, hk1, hp1⟩ := poll_home_paired hss hpair
  have hkeep1 : ∀ k, s1.keepStateUntil = some k → k ≤ env.now := by
    intro k hk
    exact hkeep k (hk1 ▸ hk)
  have hk2 : (expire_keep env.now s1).keepStateUntil = none := expire_keep_clears hkeep1
  obtain ⟨hc2, hd2, hm2, he2⟩ := expire_keep_frame env.now s1
  rw [hpoll]
  refine ⟨?_, ?_, ?_⟩
  · intro hds hb
    have hds2 : (expire_keep env.now s1).defaultState = some true := by
      rw [hd2, hd1, hds]
    rw [evaluate_of_keep_none hk2 (hysteresis_true_hi hds2 hb)]
    rw [(drive_status_frame env true _).1]
  · intro hds hb
    have hds2 : (expire_keep env.now s1).defaultState = some false := by
      rw [hd2, hd1, hds]
    rw [evaluate_of_keep_none hk2 (hysteresis_false_lo hds2 hb)]
    rw [(drive_status_frame env true _).1]
  · intro hb1 hb2
    have hcn : ¬(CHARGE_THRESHOLD ≤ env.battery) := not_le.mpr hb2
    have hdn : ¬(env.battery ≤ DISCHARGE_THRESHOLD) := not_le.mpr hb1
    rcases hds : s.defaultState with _ | b
    · have hds2 : (expire_keep env.now s1).defaultState = none := by
        rw [hd2, hd1, hds]
      rw [evaluate_of_keep_none_broken hk2 hds2]
      simp [hds2, hds]
    · rcases b with _ | _
      · have hds2 : (expire_keep env.now s1).defaultState = some false := by
          rw [hd2, hd1, hds]
        rw [evaluate_of_keep_none hk2 (hysteresis_false_hi hds2 hdn)]
        rw [(drive_status_frame env true _).1, hds2]
      · have hds2 : (expire_keep env.now s1).defaultState = some true := by
          rw [hd2, hd1, hds]
        rw [evaluate_of_keep_none hk2 (hysteresis_true_lo hds2 hcn)]
        rw [(drive_status_frame env true _).1, hds2]

/-- C1 witness: the dead-band theorem applied to the initial state with an
80% battery reading on the home network. -/
theorem hysteresis_dead_band_witness :
    ( _poll { ssid := some "HomeSSID", now := 0, battery := 80, driverOk := true }
        { currentState := some true, defaultState := some true, keepStateUntil := none,
          manualOverrideState := none, manualOverrideStateExpiresAt := none }).status.defaultState
      = some false := by
  have h := hysteresis_dead_band
    { ssid := some "HomeSSID", now := 0, battery := 80, driverOk := true }
    { currentState := some true, defaultState := some true, keepStateUntil := none,
      manualOverrideState := none, manualOverrideStateExpiresAt := none }
    rfl (by decide) (by intro k hk; exact Option.noConfusion hk)
  exact h.1 rfl (by decide)

/-- C2: Manual override precedence and expiry.  On the expected network with
a paired override `(m, e)` and `defaultState` present: while `now < e` the
desired state is `m` regardless of battery level and `defaultState`; once
`e <= now` both override fields are removed in that same reconciliation and
the desired state equals the record's `defaultState`. -/
theorem manual_override_precedence_expiry (env : Env) (s : Status) (m : Bool) (e : Int)
    (hss : env.ssid = some HOME_SSID)
    (hm : s.manualOverrideState = some m)
    (he : s.manualOverrideStateExpiresAt = some e)
    (hds : s.defaultState.isSome) :
    (env.now < e → ( _poll env s).desired = some m) ∧
    (e ≤ env.now →
      ( _poll env s).status.manualOverrideState = none ∧
      ( _poll env s).status.manualOverrideStateExpiresAt = none ∧
      ( _poll env s).desired = ( _poll env s).status.defaultState) := by
  obtain ⟨b, hdsb⟩ := Option.isSome_iff_exists.mp hds
  constructor
  · intro hlt
    have hov := expire_override_of_live hm he (not_le.mpr hlt)
    rw [poll_home hss hov]
    obtain ⟨hec, hed, hem, hee⟩ := expire_keep_frame env.now s
    have hm2 : (expire_keep env.now s).manualOverrideState = some m := by rw [hem, hm]
    rcases hk2 : (expire_keep env.now s).keepStateUntil with _ | k
    · have hds2 : (expire_keep env.now s).defaultState = some b := by rw [hed, hdsb]
      obtain ⟨b2, hh⟩ := hysteresis_total hds2
      rw [evaluate_of_keep_none hk2 hh]
      have hm3 : ({ expire_keep env.now s with defaultState := some b2 } :
          Status).manualOverrideState = some m := hm2
      exact drive_desired (desired_state_of_override hm3)
    · rw [evaluate_of_keep_some hk2]
      exact drive_desired (desired_state_of_override hm2)
  · intro hge
    have hov := expire_override_of_expired hm he hge
    rw [poll_home hss hov]
    set s1 : Status :=
      { s with manualOverrideState := none, manualOverrideStateExpiresAt := none } with hs1
    obtain ⟨hec, hed, hem, hee⟩ := expire_keep_frame env.now s1
    have hm2 : (expire_keep env.now s1).manualOverrideState = none := by rw [hem]
    have he2 : (expire_keep env.now s1).manualOverrideStateExpiresAt = none := by rw [hee]
    have hds2 : (expire_keep env.now s1).defaultState = some b := by rw [hed]; exact hdsb
    rcases hk2 : (expire_keep env.now s1).keepStateUntil with _ | k
    · obtain ⟨b2, hh⟩ := hysteresis_total hds2
      rw [evaluate_of_keep_none hk2 hh]
      obtain ⟨hf1, hf2, hf3, hf4, hf5⟩ :=
        drive_status_frame env true { expire_keep env.now s1 with defaultState := some b2 }
      have hm3 : ({ expire_keep env.now s1 with defaultState := some b2 } :
          Status).manualOverrideState = none := hm2
      refine ⟨by rw [hf3]; exact hm3, by rw [hf4]; exact he2, ?_⟩
      rw [drive_desired (desired_state_of_default hm3 rfl), hf1]
    · rw [evaluate_of_keep_some hk2]
      obtain ⟨hf1, hf2, hf3, hf4, hf5⟩ := drive_status_frame env false (expire_keep env.now s1)
      refine ⟨by rw [hf3]; exact hm2, by rw [hf4]; exact he2, ?_⟩
      rw [drive_desired (desired_state_of_default hm2 hds2), hf1, hds2]

/-- C2 witness: an unexpired override forces the desired state, and an
expired one is cleared, on concrete inputs. -/
theorem manual_override_precedence_expiry_witness :
    ( _poll { ssid := some "HomeSSID", now := 0, battery := 80, driverOk := true }
        { currentState := some true, defaultState := some true, keepStateUntil := none,
          manualOverrideState := some true, manualOverrideStateExpiresAt := some 100 }).desired
      = some true := by
  have h := manual_override_precedence_expiry
    { ssid := some "HomeSSID", now := 0, battery := 80, driverOk := true }
    { currentState := some true, defaultState := some true, keepStateUntil := none,
      manualOverrideState := some true, manualOverrideStateExpiresAt := some 100 }
    true 100 rfl rfl rfl (by decide)
  exact h.1 (by decide)

/-- C3: Keep-window gating.  On the expected network with a paired override
record and `keepStateUntil = k` present: while `now < k` the battery is not
queried and `defaultState` (and the keep-window itself) are unchanged by the
reconciliation; once `k <= now` the keep-window is removed and the
hysteresis evaluation (battery query) runs in that same cycle. -/
theorem keep_window_gating (env : Env) (s : Status) (k : Int)
    (hss : env.ssid = some HOME_SSID)
    (hpair : overridePaired s)
    (hk : s.keepStateUntil = some k) :
    (env.now < k →
      ( _poll env s).batteryQueried = false ∧
      ( _poll env s).status.defaultState = s.defaultState ∧
      ( _poll env s).status.keepStateUntil = some k) ∧
    (k ≤ env.now →
      ( _poll env s).status.keepStateUntil = none ∧
      ( _poll env s).batteryQueried = true) := by
  obtain ⟨s1, hov, hpoll, hc1, hd1, hk1, hp1⟩ := poll_home_paired hss hpair
  have hk1k : s1.keepStateUntil = some k := by rw [hk1, hk]
  rw [hpoll]
  constructor
  · intro hlt
    rw [expire_keep_of_live hk1k (not_le.mpr hlt)]
    rw [evaluate_of_keep_some hk1k]
    obtain ⟨hf1, hf2, hf3, hf4, hf5⟩ := drive_status_frame env false s1
    exact ⟨hf5, by rw [hf1, hd1], by rw [hf2, hk1k]⟩
  · intro hge
    rw [expire_keep_of_expired hk1k hge]
    set s2 : Status := { s1 with keepStateUntil := none } with hs2
    have hk2 : s2.keepStateUntil = none := rfl
    rcases hds2 : s2.defaultState with _ | b
    · rw [evaluate_of_keep_none_broken hk2 hds2]
      exact ⟨rfl, rfl⟩
    · obtain ⟨b2, hh⟩ := hysteresis_total hds2
      rw [evaluate_of_keep_none hk2 hh]
      obtain ⟨hf1, hf2, hf3, hf4, hf5⟩ :=
        drive_status_frame env true { s2 with defaultState := some b2 }
      exact ⟨by rw [hf2], hf5⟩

/-- C3 witness: an active keep-window suppresses the battery query and
leaves `defaultState` untouched on concrete inputs. -/
theorem keep_window_gating_witness :
    ( _poll { ssid := some "HomeSSID", now := 0, battery := 80, driverOk := true }
        { currentState := some true, defaultState := some true, keepStateUntil := some 100,
          manualOverrideState := none, manualOverrideStateExpiresAt := none }).batteryQueried
      = false := by
  have h := keep_window_gating
    { ssid := some "HomeSSID", now := 0, battery := 80, driverOk := true }
    { currentState := some true, defaultState := some true, keepStateUntil := some 100,
      manualOverrideState := none, manualOverrideStateExpiresAt := none }
    100 rfl (by decide) rfl
  exact (h.1 (by decide)).1

/-- C4: The outlet driver is invoked if and only if the computed desired
state differs from `currentState`; on driver success `currentState` is set
to the desired state and the record is persisted; on driver failure
`currentState` is unchanged, the record is not written, and the error
propagates. -/
theorem driver_call_iff_atomic (env : Env) (s : Status) (cur : Bool)
    (hss : env.ssid = some HOME_SSID)
    (hpair : overridePaired s)
    (hcur : s.currentState = some cur)
    (hds : s.defaultState.isSome) :
    ∃ d : Bool,
      ( _poll env s).desired = some d ∧
      ( _poll env s).driverCalls = (if d = cur then [] else [d]) ∧
      (env.driverOk = true →
        ( _poll env s).status.currentState = some d ∧
        ( _poll env s).written = true ∧ ( _poll env s).error = none) ∧
      (env.driverOk = false → d ≠ cur →
        ( _poll env s).status.currentState = some cur ∧
        ( _poll env s).written = false ∧
        ( _poll env s).error = some PollError.driverError) := by
  obtain ⟨b, hdsb⟩ := Option.isSome_iff_exists.mp hds
  obtain ⟨s1, hov, hpoll, hc1, hd1, hk1, hp1⟩ := poll_home_paired hss hpair
  rw [hpoll]
  set s2 := expire_keep env.now s1 with hs2
  obtain ⟨hec, hed, hem, hee⟩ := expire_keep_frame env.now s1
  have hcur2 : s2.currentState = some cur := by rw [hec, hc1, hcur]
  have hds2 : s2.defaultState = some b := by rw [hed, hd1, hdsb]
  rcases hk2 : s2.keepStateUntil with _ | k
  · obtain ⟨b2, hh⟩ := hysteresis_total hds2
    rw [evaluate_of_keep_none hk2 hh]
    rcases hm2 : s2.manualOverrideState with _ | m
    · refine ⟨b2, drive_spec ?_ hcur2⟩
      simp [desired_state]
    · refine ⟨m, drive_spec ?_ hcur2⟩
      simp [desired_state]
  · rw [evaluate_of_keep_some hk2]
    rcases hm2 : s2.manualOverrideState with _ | m
    · exact ⟨b, drive_spec (desired_state_of_default hm2 hds2) hcur2⟩
    · exact ⟨m, drive_spec (desired_state_of_override hm2) hcur2⟩

/-- C4 witness: with battery at 80% and the outlet on, the driver is asked
to turn the outlet off exactly once. -/
theorem driver_call_iff_atomic_witness :
    ( _poll { ssid := some "HomeSSID", now := 0, battery := 80, driverOk := true }
        { currentState := some true, defaultState := some true, keepStateUntil := none,
          manualOverrideState := none, manualOverrideStateExpiresAt := none }).driverCalls
      = [false] := by
  obtain ⟨d, h1, h2, h3, h4⟩ := driver_call_iff_atomic
    { ssid := some "HomeSSID", now := 0, battery := 80, driverOk := true }
    { currentState := some true, defaultState := some true, keepStateUntil := none,
      manualOverrideState := none, manualOverrideStateExpiresAt := none }
    true rfl (by decide) rfl (by decide)
  have hx : ( _poll { ssid := some "HomeSSID", now := 0, battery := 80, driverOk := true }
      { currentState := some true, defaultState := some true, keepStateUntil := none,
        manualOverrideState := none, manualOverrideStateExpiresAt := none }).desired
      = some false := by decide
  rw [hx] at h1
  have hd : d = false := (Option.some.inj h1).symm
  subst hd
  rw [h2]
  simp

end BatteryController

namespace BatteryController

/-- C5: the optimistic lock does not fail immediately.  The claim (and the
docstring of `_optimistic_lock`) say acquisition raises rather than waits
when the lock is held, but the `SoftFileLock` is constructed without a
`timeout` argument, so the filelock default `-1` applies and the acquisition
polls indefinitely.  The blocking `_lock()` (timeout 30) is the one that
raises once its deadline passes. -/
theorem optimistic_lock_waits_indefinitely :
    softFileLockAcquire optimistic_lock_timeout true = .waitsIndefinitely ∧
    softFileLockAcquire optimistic_lock_timeout true ≠ .raisedTimeout ∧
    softFileLockAcquire lock_timeout true = .raisedTimeout := by
  decide

/-- C6: Presence-guard short circuit.  When the current network differs from
the home SSID (including no network at all), the record is persisted exactly
as passed in: no field changes, no battery query, no override or keep-window
expiry, no driver call, and no error. -/
theorem presence_guard_frame (env : Env) (s : Status)
    (h : env.ssid ≠ some HOME_SSID) :
    _poll env s =
      { status := s, desired := none, driverCalls := [], batteryQueried := false
        written := true, error := none } :=
  poll_away h

/-- C6 witness: away from home, a record is persisted as-is even with an
expired keep-window and a broken override pair. -/
theorem presence_guard_frame_witness :
    _poll { ssid := none, now := 10, battery := 80, driverOk := true }
      { currentState := some true, defaultState := some true, keepStateUntil := some 5,
        manualOverrideState := some true, manualOverrideStateExpiresAt := none } =
      { status :=
          { currentState := some true, defaultState := some true,
            keepStateUntil := some 5, manualOverrideState := some true,
            manualOverrideStateExpiresAt := none },
        desired := none, driverCalls := [], batteryQueried := false,
        written := true, error := none } :=
  presence_guard_frame _ _ (by decide)

/-- C8: `prepare_for_sleep` queries the battery before acquiring the lock
(event order of lines 341-342), sets `defaultState` to `true` exactly when
the reading is at most 30 (`false` strictly above 30), sets `keepStateUntil`
to the current time plus 2 minutes (120 seconds), and then runs the
reconciliation step on the mutated record, all other fields untouched. -/
theorem prepare_for_sleep_spec (battery : ℚ) (tSleep : Int) (env : Env) (s : Status) :
    (List.indexOf OpEvent.queryBattery prepare_for_sleep_events <
      List.indexOf OpEvent.acquireLock prepare_for_sleep_events) ∧
    ∃ s1 : Status,
      prepare_for_sleep battery tSleep env s = _poll env s1 ∧
      (battery ≤ 30 ↔ s1.defaultState = some true) ∧
      (30 < battery ↔ s1.defaultState = some false) ∧
      s1.keepStateUntil = some (tSleep + 120) ∧
      SLEEP_INTERVAL = 120 ∧ SLEEP_CHARGE_THRESHOLD = 30 ∧
      s1.currentState = s.currentState ∧
      s1.manualOverrideState = s.manualOverrideState ∧
      s1.manualOverrideStateExpiresAt = s.manualOverrideStateExpiresAt := by
  refine ⟨by decide, _, rfl, ?_, ?_, rfl, rfl, rfl, rfl, rfl, rfl⟩
  · simp [SLEEP_CHARGE_THRESHOLD]
  · simp [SLEEP_CHARGE_THRESHOLD, not_le]

/-- The reconciliation step preserves the override-pairing invariant. -/
theorem poll_preserves_paired {env : Env} {s : Status} (h : overridePaired s) :
    overridePaired (( _poll env s).status) := by
  by_cases hss : env.ssid = some HOME_SSID
  · obtain ⟨s1, hov, hpoll, hc1, hd1, hk1, hp1⟩ := poll_home_paired hss h
    rw [hpoll]
    set s2 := expire_keep env.now s1 with hs2
    obtain ⟨hec, hed, hem, hee⟩ := expire_keep_frame env.now s1
    have hp2 : overridePaired s2 := by
      unfold overridePaired at *
      rw [hem, hee]
      exact hp1
    rcases hk2 : s2.keepStateUntil with _ | k
    · rcases hds2 : s2.defaultState with _ | b
      · rw [evaluate_of_keep_none_broken hk2 hds2]
        exact hp2
      · obtain ⟨b2, hh⟩ := hysteresis_total hds2
        rw [evaluate_of_keep_none hk2 hh]
        obtain ⟨hf1, hf2, hf3, hf4, hf5⟩ :=
          drive_status_frame env true { s2 with defaultState := some b2 }
        unfold overridePaired
        rw [hf3, hf4]
        exact hp2
    · rw [evaluate_of_keep_some hk2]
      obtain ⟨hf1, hf2, hf3, hf4, hf5⟩ := drive_status_frame env false s2
      unfold overridePaired
      rw [hf3, hf4]
      exact hp2
  · rw [poll_away hss]
    exact h

/-- C9: the paired-override invariant (`manualOverrideState` and
`manualOverrideStateExpiresAt` both present or both absent) is preserved by
the reconciliation step and by every operation: poll, enableOverride,
disableOverride, prepareForSleep, and scan. -/
theorem override_paired_preserved (env : Env) (s : Status) (tSet : Int)
    (battery : ℚ) (tSleep : Int) (isOn : Bool)
    (h : overridePaired s) :
    overridePaired (( _poll env s).status) ∧
    overridePaired ((poll env s).status) ∧
    overridePaired ((enable_manual_override tSet env s).status) ∧
    overridePaired ((disable_manual_override env s).status) ∧
    overridePaired ((prepare_for_sleep battery tSleep env s).status) ∧
    overridePaired ((scan isOn env s).status) := by
  refine ⟨poll_preserves_paired h, poll_preserves_paired h, ?_, ?_, ?_, ?_⟩
  · exact poll_preserves_paired rfl
  · exact poll_preserves_paired rfl
  · exact poll_preserves_paired h
  · exact poll_preserves_paired h

/-- C9 witness: the invariant holds after a poll of the initial state on the
home network. -/
theorem override_paired_preserved_witness :
    overridePaired
      (( _poll { ssid := some "HomeSSID", now := 0, battery := 80, driverOk := true }
        default_state).status) := by
  have h := override_paired_preserved
    { ssid := some "HomeSSID", now := 0, battery := 80, driverOk := true }
    default_state 0 80 0 true (by decide)
  exact h.1

/-- C10: on a record that has `currentState` and `defaultState` and
satisfies the paired-override invariant, the reconciliation never raises a
`KeyError`: the unguarded reads of `manualOverrideStateExpiresAt`,
`defaultState` and `currentState` all succeed. -/
theorem reconcile_no_keyError (env : Env) (s : Status)
    (hcur : s.currentState.isSome) (hds : s.defaultState.isSome)
    (hpair : overridePaired s) :
    ∀ f : String, ( _poll env s).error ≠ some (.keyError f) := by
  intro f
  by_cases hss : env.ssid = some HOME_SSID
  · obtain ⟨c, hcurc⟩ := Option.isSome_iff_exists.mp hcur
    obtain ⟨b, hdsb⟩ := Option.isSome_iff_exists.mp hds
    obtain ⟨s1, hov, hpoll, hc1, hd1, hk1, hp1⟩ := poll_home_paired hss hpair
    rw [hpoll]
    set s2 := expire_keep env.now s1 with hs2
    obtain ⟨hec, hed, hem, hee⟩ := expire_keep_frame env.now s1
    have hcur2 : s2.currentState = some c := by rw [hec, hc1, hcurc]
    have hds2 : s2.defaultState = some b := by rw [hed, hd1, hdsb]
    rcases hk2 : s2.keepStateUntil with _ | k
    · obtain ⟨b2, hh⟩ := hysteresis_total hds2
      rw [evaluate_of_keep_none hk2 hh]
      obtain ⟨d, hd3⟩ := desired_state_total
        (show ({ s2 with defaultState := some b2 } : Status).defaultState = some b2 from rfl)
      exact drive_no_keyError hd3 hcur2 f
    · rw [evaluate_of_keep_some hk2]
      obtain ⟨d, hd3⟩ := desired_state_total hds2
      exact drive_no_keyError hd3 hcur2 f
  · rw [poll_away hss]
    simp

/-- C10 witness: no `KeyError` on the initial state. -/
theorem reconcile_no_keyError_witness :
    ( _poll { ssid := some "HomeSSID", now := 0, battery := 80, driverOk := true }
        default_state).error ≠ some (.keyError "defaultState") :=
  reconcile_no_keyError _ _ (by decide) (by decide) (by decide) "defaultState"

end BatteryController

namespace BatteryController

theorem expire_keep_congr {now : Int} {a b : Status}
    (hk : b.keepStateUntil = a.keepStateUntil)
    (h : expire_keep now a = a) :
    expire_keep now b = b := by
  rcases hka : a.keepStateUntil with _ | k
  · exact expire_keep_of_none (hk.trans hka)
  · by_cases hge : k ≤ now
    · rw [expire_keep_of_expired hka hge] at h
      have := congrArg Status.keepStateUntil h
      simp [hka] at this
    · exact expire_keep_of_live (hk.trans hka) hge

/-- C7: Idempotence of reconciliation.  If a reconciliation succeeds, then
running the step again on its output with the same time, battery reading,
and network makes no driver call and persists a record identical to the
first run's. -/
theorem reconcile_idempotent (env : Env) (s : Status)
    (h : ( _poll env s).error = none) :
    ( _poll env (( _poll env s).status)).driverCalls = [] ∧
    ( _poll env (( _poll env s).status)).status = ( _poll env s).status ∧
    ( _poll env (( _poll env s).status)).written = true := by
  by_cases hss : env.ssid = some HOME_SSID
  · rcases hov : expire_override env.now s with er | s1
    · rw [poll_home_broken hss hov] at h
      simp at h
    · have hpoll := poll_home hss hov
      rw [hpoll] at h ⊢
      set s2 := expire_keep env.now s1 with hs2
      have hov1 : expire_override env.now s1 = .ok s1 := expire_override_idem hov
      obtain ⟨hec, hed, hem, hee⟩ := expire_keep_frame env.now s1
      have hov2 : expire_override env.now s2 = .ok s2 :=
        expire_override_congr hem hee hov1
      have hk22 : expire_keep env.now s2 = s2 := expire_keep_idem env.now s1
      rcases hk2 : s2.keepStateUntil with _ | k
      · rcases hds2 : s2.defaultState with _ | b
        · rw [evaluate_of_keep_none_broken hk2 hds2] at h
          simp at h
        · obtain ⟨b2, hh⟩ := hysteresis_total hds2
          rw [evaluate_of_keep_none hk2 hh] at h ⊢
          set s3 : Status := { s2 with defaultState := some b2 } with hs3
          rcases hd : desired_state s3 with er | d
          · rw [drive_of_no_desired hd] at h
            simp at h
          · rcases hcur3 : s3.currentState with _ | c
            · rw [drive_of_no_current hd hcur3] at h
              simp at h
            · by_cases hne : d = c
              · subst hne
                rw [drive_of_eq hd hcur3] at h ⊢
                show ( _poll env s3).driverCalls = [] ∧
                  ( _poll env s3).status = s3 ∧ ( _poll env s3).written = true
                have hov3 : expire_override env.now s3 = .ok s3 :=
                  expire_override_congr (a := s2) rfl rfl hov2
                rw [poll_home hss hov3]
                have hk3 : s3.keepStateUntil = none := hk2
                rw [expire_keep_of_none hk3]
                have hh3 : hysteresis env.battery s3 = .ok s3 := hysteresis_fix hh rfl rfl
                rw [evaluate_of_keep_none hk3 hh3]
                rw [drive_of_eq hd hcur3]
                exact ⟨rfl, rfl, rfl⟩
              · rcases hdr : env.driverOk with _ | _
                · rw [drive_of_ne_fail hd hcur3 hne hdr] at h
                  simp at h
                · rw [drive_of_ne_ok hd hcur3 hne hdr] at h ⊢
                  set t : Status := { s3 with currentState := some d } with hts
                  show ( _poll env t).driverCalls = [] ∧
                    ( _poll env t).status = t ∧ ( _poll env t).written = true
                  have hovt : expire_override env.now t = .ok t :=
                    expire_override_congr (a := s2) rfl rfl hov2
                  rw [poll_home hss hovt]
                  have hkt : t.keepStateUntil = none := hk2
                  rw [expire_keep_of_none hkt]
                  have hht : hysteresis env.battery t = .ok t := hysteresis_fix hh rfl rfl
                  rw [evaluate_of_keep_none hkt hht]
                  have hdt : desired_state t = Except.ok d :=
                    (desired_state_congr rfl rfl).trans hd
                  rw [drive_of_eq hdt rfl]
                  exact ⟨rfl, rfl, rfl⟩
      · rw [evaluate_of_keep_some hk2] at h ⊢
        rcases hd : desired_state s2 with er | d
        · rw [drive_of_no_desired hd] at h
          simp at h
        · rcases hcur2 : s2.currentState with _ | c
          · rw [drive_of_no_current hd hcur2] at h
            simp at h
          · by_cases hne : d = c
            · subst hne
              rw [drive_of_eq hd hcur2] at h ⊢
              show ( _poll env s2).driverCalls = [] ∧
                ( _poll env s2).status = s2 ∧ ( _poll env s2).written = true
              rw [poll_home hss hov2, hk22, evaluate_of_keep_some hk2,
                drive_of_eq hd hcur2]
              exact ⟨rfl, rfl, rfl⟩
            · rcases hdr : env.driverOk with _ | _
              · rw [drive_of_ne_fail hd hcur2 hne hdr] at h
                simp at h
              · rw [drive_of_ne_ok hd hcur2 hne hdr] at h ⊢
                set t : Status := { s2 with currentState := some d } with hts
                show ( _poll env t).driverCalls = [] ∧
                  ( _poll env t).status = t ∧ ( _poll env t).written = true
                have hovt : expire_override env.now t = .ok t :=
                  expire_override_congr (a := s2) rfl rfl hov2
                rw [poll_home hss hovt]
                have hkt : expire_keep env.now t = t := expire_keep_congr (a := s2) rfl hk22
                rw [hkt]
                have hk2t : t.keepStateUntil = some k := hk2
                rw [evaluate_of_keep_some hk2t]
                have hdt : desired_state t = Except.ok d :=
                  (desired_state_congr rfl rfl).trans hd
                rw [drive_of_eq hdt rfl]
                exact ⟨rfl, rfl, rfl⟩
  · simp [poll_away hss]

/-- C7 witness: a second reconciliation of the initial state's successful
outcome makes no driver call. -/
theorem reconcile_idempotent_witness :
    ( _poll { ssid := some "HomeSSID", now := 0, battery := 80, driverOk := true }
        (( _poll { ssid := some "HomeSSID", now := 0, battery := 80, driverOk := true }
          default_state).status)).driverCalls = [] := by
  have h := reconcile_idempotent
    { ssid := some "HomeSSID", now := 0, battery := 80, driverOk := true }
    default_state (by decide)
  exact h.1

end BatteryController
